import Mathlib

/-!
Shallow embedding, in Lean 4, of the control flow of the `cheapodb` Python
package (modules `cheapodb/database.py`, `cheapodb/stream.py`,
`cheapodb/table.py`, `cheapodb/utils.py`).

External AWS services (Glue, S3, Firehose, IAM) are modelled abstractly: each
operation of the package is embedded as a pure function from the relevant
backend state (or from a finite observation prefix of the backend's answers)
to the list of service calls it issues and the value it returns.  Python
exceptions are modelled with `Except`; Python `Union[bool, int]` arguments are
modelled with a dedicated sum type; an unbounded `while True` loop is modelled
by recursion over the finite list of backend answers the loop observes (an
empty `Option` result means the loop was still running after the observed
prefix) or over an explicit fuel parameter.
-/

namespace CheapoDB

/-- Python errors raised or caught by the package. -/
inductive PyErr
  | valueError
  | keyError
  | entityNotFound
  | resourceNotFound
  | alreadyExists
  | fault (code : String)
deriving DecidableEq, Repr

/-- A Python `Union[bool, int]` value, as accepted by the `wait` parameter of
`Database.update_tables`. -/
inductive Wait
  | bool (b : Bool)
  | int (n : Int)
deriving DecidableEq, Repr

/-- Python truthiness of a `Union[bool, int]` value: `False` and `0` are
falsy, everything else is truthy. -/
def Wait.truthy : Wait → Bool
  | .bool b => b
  | .int n => decide (n ≠ 0)

/-- One answer of the Glue backend to `get_crawler`: the fields of the
response read by `Database.update_tables` (`Crawler.State`,
`Crawler.CrawlElapsedTime` in milliseconds, and `Crawler.LastCrawl.Status`). -/
structure CrawlerResponse where
  state : String
  crawlElapsedTime : Nat
  lastCrawlStatus : String
deriving DecidableEq, Repr

/-- Service calls and sleeps issued by `Database.update_tables`. -/
inductive UTEvent
  | startCrawler (name : String)
  | getCrawler (name : String)
  | sleep (w : Wait)
deriving DecidableEq, Repr

/-- The condition of the `while True` loop of `Database.update_tables` under
which the code sleeps and retries: the crawler state is the string `RUNNING`
or the string `STOPPING`. -/
def isActive (s : String) : Bool :=
  s == "RUNNING" || s == "STOPPING"

/-- The `while True` loop of `Database.update_tables` (database.py lines
206-220), run against the finite list `statuses` of successive `get_crawler`
answers.  Returns the issued events (status queries and sleeps) and, when the
loop exits within the observed prefix, the reported last-run outcome
(`Crawler.LastCrawl.Status`) together with the `CrawlElapsedTime` of the
final response (the code logs this value divided by 1000 as elapsed seconds).
`none` means every observed response was `RUNNING` or `STOPPING`, so the loop
was still polling after the whole prefix. -/
def pollLoop (crawler : String) (w : Wait) :
    List CrawlerResponse → List UTEvent × Option (String × Nat)
  | [] => ([], none)
  | r :: rs =>
    if isActive r.state then
      let p := pollLoop crawler w rs
      (UTEvent.getCrawler crawler :: UTEvent.sleep w :: p.1, p.2)
    else
      ([UTEvent.getCrawler crawler], some (r.lastCrawlStatus, r.crawlElapsedTime))

/-- `Database.update_tables` (database.py lines 198-222): start the crawler,
then, only if `wait` is truthy, poll `get_crawler` until the state is neither
`RUNNING` nor `STOPPING`, sleeping `wait` seconds between polls. -/
def update_tables (crawler : String) (w : Wait)
    (statuses : List CrawlerResponse) : List UTEvent × Option (String × Nat) :=
  if w.truthy then
    let p := pollLoop crawler w statuses
    (UTEvent.startCrawler crawler :: p.1, p.2)
  else
    ([UTEvent.startCrawler crawler], none)

/-- Number of `time.sleep` calls in an event trace. -/
def sleepCount (evs : List UTEvent) : Nat :=
  (evs.filter fun e => match e with | UTEvent.sleep _ => true | _ => false).length

/-- Number of `get_crawler` status queries in an event trace. -/
def statusQueryCount (evs : List UTEvent) : Nat :=
  (evs.filter fun e => match e with | UTEvent.getCrawler _ => true | _ => false).length

/-- The event trace of `n` active polls followed by the final poll that
observes a terminal state: `get_crawler, sleep` repeated `n` times, then one
last `get_crawler`. -/
def pollEvents (crawler : String) (w : Wait) : Nat → List UTEvent
  | 0 => [UTEvent.getCrawler crawler]
  | n + 1 => UTEvent.getCrawler crawler :: UTEvent.sleep w :: pollEvents crawler w n

/-! Stream (stream.py): delivery-pipeline creation and batched ingestion. -/

/-- Firehose calls and sleeps issued by `Stream` operations. -/
inductive FhCall
  | describeStream (n : String)
  | createStream (n : String)
  | sleep (secs : Nat)
deriving DecidableEq, Repr

/-- What `Stream.initialize` returns: the `create_delivery_stream` response,
or the `describe_delivery_stream` response when creation was skipped. -/
inductive InitResult
  | createResponse (n : String)
  | describeResponse (n : String)
deriving DecidableEq, Repr

/-- The `while True` loop of `Stream.initialize` (stream.py lines 44-47), run
against the finite list `probes` of successive `Stream.exists` answers (each
probe is one `describe_delivery_stream` call; `false` means the call raised
`ResourceNotFoundException`).  After each failed probe the code sleeps 10
seconds.  The returned flag is `true` when a probe succeeded within the
observed prefix. -/
def streamWaitLoop (name : String) : List Bool → List FhCall × Bool
  | [] => ([], false)
  | b :: bs =>
    if b then ([FhCall.describeStream name], true)
    else
      let p := streamWaitLoop name bs
      (FhCall.describeStream name :: FhCall.sleep 10 :: p.1, p.2)

/-- `Stream.initialize` (stream.py lines 19-49): probe existence first; if the
pipeline exists return its description (no creation call); otherwise issue
`create_delivery_stream` once and loop on existence probes, sleeping 10
seconds after each failed probe, returning the creation response when a probe
first succeeds.  `existsPre` is the answer of the initial existence probe and
`probes` the answers of the post-creation probes.  A `none` result means
every observed post-creation probe failed, so the loop was still running. -/
def streamInit (name : String) (existsPre : Bool) (probes : List Bool) :
    List FhCall × Option InitResult :=
  if existsPre then
    ([FhCall.describeStream name, FhCall.describeStream name],
     some (InitResult.describeResponse name))
  else
    let p := streamWaitLoop name probes
    (FhCall.describeStream name :: FhCall.createStream name :: p.1,
     if p.2 then some (InitResult.createResponse name) else none)

/-- Number of `create_delivery_stream` calls in a Firehose trace. -/
def createStreamCount (evs : List FhCall) : Nat :=
  (evs.filter fun e => match e with | FhCall.createStream _ => true | _ => false).length

/-- The Firehose trace of `k` failed existence probes (each followed by a 10
second sleep) and the final successful probe. -/
def streamWaitEvents (name : String) : Nat → List FhCall
  | 0 => [FhCall.describeStream name]
  | k + 1 => FhCall.describeStream name :: FhCall.sleep 10 :: streamWaitEvents name k

/-- `Stream._chunks` (stream.py lines 74-78): split a sequence into
successive chunks of `size` elements (the last chunk may be shorter).  The
Python generator takes one element and then `islice`s the next `size - 1`. -/
def chunksGo (size : Nat) : List α → Nat → List (List α)
  | [], _ => []
  | _ :: _, 0 => []
  | x :: xs, fuel + 1 =>
    (x :: xs.take (size - 1)) :: chunksGo size (xs.drop (size - 1)) fuel

/-- `Stream._chunks` with the structural fuel `l.length`, which bounds the
number of chunks (every step consumes at least the head element), so the
`0`-fuel branch of `chunksGo` is never reached. -/
def chunks (size : Nat) (l : List α) : List (List α) :=
  chunksGo size l l.length

/-- `Stream.from_records` (stream.py lines 80-94): a single
`executor.submit` of one `put_record_batch` call whose `Records` field holds
one entry per chunk of 500 records (each entry is the serialization of the
chunk object itself, not of a record).  The returned list is the list of
issued `put_record_batch` calls: its one element carries the stream name and
the chunk list placed in `Records`.  The `threads` argument sizes the worker
pool but does not influence the issued calls. -/
def from_records (stream : String) (records : List α) (threads : Nat) :
    List (String × List (List α)) :=
  [(stream, chunks 500 records)]

/-! Create-or-get patterns: IAM role (database.py lines 50-109, utils.py
lines 22-83) and Glue crawler (database.py lines 167-196). -/

/-- IAM calls issued by role creation. -/
inductive IamCall
  | createRole (n : String)
  | attachRolePolicy (n : String)
  | putRolePolicy (n : String)
  | getRole (n : String)
deriving DecidableEq, Repr

/-- The ARN the IAM backend associates to a role name (deterministic in the
account and the name, so one fixed function models it). -/
def arnOf (name : String) : String :=
  "arn:aws:iam::service-role/" ++ name

/-- The auto-named service-role creation in `Database.__init__` (database.py
lines 50-104, the `create_iam_role and not iam_role_name` path): try
`create_role` with name `{db}-CheapoDBExecutionRole`, then attach and put the
policies; on `EntityAlreadyExistsException` fall back to `get_role` and take
the existing role's ARN.  `roles` is the set of role names existing in the
IAM backend; the result is the issued calls, the new backend state and the
ARN stored in `iam_role_arn`. -/
def initRole (dbName : String) (roles : List String) :
    List IamCall × List String × String :=
  let roleName := dbName ++ "-CheapoDBExecutionRole"
  if roleName ∈ roles then
    ([IamCall.createRole roleName, IamCall.getRole roleName], roles, arnOf roleName)
  else
    ([IamCall.createRole roleName, IamCall.attachRolePolicy roleName,
      IamCall.putRolePolicy roleName],
     roleName :: roles, arnOf roleName)

/-- A `CheapoDBException`, with its message. -/
inductive CheapoErr
  | cheapoDBException (msg : String)
deriving DecidableEq, Repr

/-- `create_cheapodb_role` (utils.py lines 22-83), the caller-supplied-name
path: try `create_role`; on `EntityAlreadyExistsException` raise a
`CheapoDBException` telling the caller to provide the existing role's ARN
(no lookup fallback); otherwise attach and put the policies and return the
new role's ARN. -/
def create_cheapodb_role (name bucket : String) (roles : List String) :
    List IamCall × List String × Except CheapoErr String :=
  if name ∈ roles then
    ([IamCall.createRole name], roles,
     Except.error (CheapoErr.cheapoDBException
       ("Role already exists for database: CheapoDBRole-" ++ bucket ++
        ". Provide the role ARN as iam_role_arn.")))
  else
    ([IamCall.createRole name, IamCall.attachRolePolicy name,
      IamCall.putRolePolicy name],
     name :: roles, Except.ok (arnOf name))

/-- Glue crawler calls issued by `Database.create_crawler`. -/
inductive GlueCall
  | createCrawler (n : String)
  | getCrawler (n : String)
deriving DecidableEq, Repr

/-- `Database.create_crawler` (database.py lines 167-196): try
`create_crawler(Name=name)`; on `AlreadyExistsException` fall back; in both
branches the returned identifier is `get_crawler(Name=self.name)` — the
lookup uses the database name, not the crawler name, exactly as the source
does — which raises `EntityNotFoundException` when no crawler of that name
exists.  `crawlers` is the set of crawler names existing in the Glue
backend. -/
def create_crawler (dbName : String) (crawlers : List String) (name : String) :
    List GlueCall × List String × Except PyErr String :=
  if name ∈ crawlers then
    ([GlueCall.createCrawler name, GlueCall.getCrawler dbName], crawlers,
     if dbName ∈ crawlers then Except.ok dbName else Except.error PyErr.entityNotFound)
  else
    ([GlueCall.createCrawler name, GlueCall.getCrawler dbName], name :: crawlers,
     if dbName ∈ name :: crawlers then Except.ok dbName
     else Except.error PyErr.entityNotFound)

/-- True for the calls that mutate the backend (resource creations). -/
def GlueCall.isMutating : GlueCall → Bool
  | GlueCall.createCrawler _ => true
  | GlueCall.getCrawler _ => false

/-! Naming convention (table.py lines 18-29, 85-115, utils.py lines 12-19). -/

/-- Python `str.strip` on the character list of a string: drop whitespace
from the front, then from the back. -/
def stripChars (l : List Char) : List Char :=
  ((l.dropWhile Char.isWhitespace).reverse.dropWhile Char.isWhitespace).reverse

/-- Python `str.strip`. -/
def pyStrip (s : String) : String :=
  ⟨stripChars s.data⟩

/-- A Python value passed to `normalize_table_name`: a `str` or anything
else (the `isinstance(name, str)` check). -/
inductive PyVal
  | str (s : String)
  | nonStr
deriving DecidableEq, Repr

/-- `normalize_table_name` (utils.py lines 12-19): `ValueError` for a
non-string, strip, `ValueError` for an empty result, otherwise the stripped
name. -/
def normalize_table_name : PyVal → Except PyErr String
  | PyVal.nonStr => Except.error PyErr.valueError
  | PyVal.str s =>
    let t := pyStrip s
    if t.length = 0 then Except.error PyErr.valueError else Except.ok t

/-- The table-identifier computation of `Table.__init__` (table.py line 29):
`normalize_table_name` applied to the f-string `{prefix}_{name}` (always a
`str`). -/
def tableInit (pfx name : String) : Except PyErr String :=
  normalize_table_name (PyVal.str (pfx ++ "_" ++ name))

/-- Whether a string starts with the path separator `/` (first branch of
CPython `posixpath.join` for each component). -/
def startsWithSep (s : String) : Bool :=
  s.data.head? == some '/'

/-- Whether a string ends with the path separator `/`. -/
def endsWithSep (s : String) : Bool :=
  s.data.getLast? == some '/'

/-- One step of CPython `posixpath.join`: an absolute component replaces the
path so far; otherwise a separator is inserted unless the path so far is
empty or already ends with one. -/
def joinOne (path b : String) : String :=
  if startsWithSep b then b
  else if path == "" || endsWithSep path then path ++ b
  else path ++ "/" ++ b

/-- `os.path.join(a, b, c)` on POSIX. -/
def osPathJoin3 (a b c : String) : String :=
  joinOne (joinOne a b) c

/-- The storage key computed by `Table.upload` and `Table.download`
(table.py lines 93 and 112): `os.path.join(self.prefix, self.name,
self.name)`. -/
def uploadKey (pfx name : String) : String :=
  osPathJoin3 pfx name name

/-- `Table.__init__` (table.py lines 18-29) as observable behaviour: the
computed table identifier (or the `ValueError` from normalization) together
with the list of service calls issued during construction — the constructor
performs no network call, so that list is empty by the source's own shape. -/
def tableCtor (pfx name : String) : Except PyErr String × List GlueCall :=
  (tableInit pfx name, [])

/-! Table deletion (table.py lines 117-151). -/

/-- One entry of the `Versions` list of an S3 `list_object_versions`
response. -/
structure ObjVersion where
  key : String
  versionId : String
deriving DecidableEq, Repr

/-- Calls issued by `Table.delete`. -/
inductive DelCall
  | listObjectVersions (bucket pfx : String)
  | deleteObject (bucket key versionId : String)
  | deleteTable (db tbl : String)
deriving DecidableEq, Repr

/-- `Table.delete` (table.py lines 117-151): when `includeData`, list the
object versions under `{prefix}/{name}` and delete each listed version
(a missing `Versions` key — the backend answer `none` — raises `KeyError`,
which is caught and logged); then in every case issue the Glue
`delete_table` call (its `EntityNotFoundException` is caught and logged).
The function returns the full list of issued calls; it raises nothing. -/
def tableDelete (dbName tbl pfx name : String)
    (versionsField : Option (List ObjVersion)) (includeData : Bool) :
    List DelCall :=
  (if includeData then
    DelCall.listObjectVersions dbName (pfx ++ "/" ++ name) ::
      (match versionsField with
       | none => []
       | some vs => vs.map fun v => DelCall.deleteObject dbName v.key v.versionId)
   else []) ++ [DelCall.deleteTable dbName tbl]

/-- Number of delete-by-version calls in a `Table.delete` trace. -/
def deleteObjectCount (evs : List DelCall) : Nat :=
  (evs.filter fun e =>
    match e with | DelCall.deleteObject _ _ _ => true | _ => false).length

/-! Existence probes (table.py lines 64-70, stream.py lines 66-72). -/

/-- `Table.exists` (table.py lines 64-70): call `describe`; return `True` on
success; the handler catches `(EntityNotFoundException, Exception)` — every
exception — and returns `False`.  The argument is the outcome of the
underlying `get_table` call. -/
def tableExists (describeResult : Except PyErr Unit) : Except PyErr Bool :=
  match describeResult with
  | Except.ok _ => Except.ok true
  | Except.error _ => Except.ok false

/-- `Stream.exists` (stream.py lines 66-72): call `describe`; return `True`
on success, `False` on `ResourceNotFoundException` only; any other error
propagates. -/
def streamExists (describeResult : Except PyErr Unit) : Except PyErr Bool :=
  match describeResult with
  | Except.ok _ => Except.ok true
  | Except.error PyErr.resourceNotFound => Except.ok false
  | Except.error e => Except.error e

/-! Table version listing (table.py lines 40-62). -/

/-- The request payload `Table.get_versions` builds: database name, table
name, `MaxResults=100`, and an optional `NextToken`. -/
structure TVRequest where
  databaseName : String
  tableName : String
  maxResults : Nat
  nextToken : Option String
deriving DecidableEq, Repr

/-- The fields of a `get_table_versions` response read by the loop; a `none`
token models an absent `NextToken` key (reading it raises `KeyError`). -/
structure TVResponse where
  tableVersions : List Nat
  nextToken : Option String
deriving DecidableEq, Repr

/-- The first-page payload built at the top of every loop iteration
(table.py lines 50-54): no `NextToken`. -/
def basePayload (db tbl : String) : TVRequest :=
  ⟨db, tbl, 100, none⟩

/-- The `while True` loop of `Table.get_versions` (table.py lines 48-62),
with an explicit fuel bound on the number of iterations: each iteration
rebuilds the first-page payload, issues the request, breaks with the
accumulated versions if `TableVersions` is empty, reads `NextToken`
(raising `KeyError` when the key is absent; when present the token is
written into the local payload that the next iteration discards), extends
the accumulator and loops.  Returns the issued requests and `none` while the
loop is still running when the fuel runs out. -/
def getVersionsLoop (backend : TVRequest → TVResponse) (db tbl : String)
    (acc : List Nat) : Nat → List TVRequest × Option (Except PyErr (List Nat))
  | 0 => ([], none)
  | fuel + 1 =>
    let req := basePayload db tbl
    let resp := backend req
    if resp.tableVersions = [] then ([req], some (Except.ok acc))
    else
      match resp.nextToken with
      | none => ([req], some (Except.error PyErr.keyError))
      | some _ =>
        let p := getVersionsLoop backend db tbl (acc ++ resp.tableVersions) fuel
        (req :: p.1, p.2)

/-- `Table.get_versions` run for at most `fuel` iterations. -/
def get_versions (backend : TVRequest → TVResponse) (db tbl : String)
    (fuel : Nat) : List TVRequest × Option (Except PyErr (List Nat)) :=
  getVersionsLoop backend db tbl [] fuel

theorem sleepCount_pollEvents (c : String) (w : Wait) :
    ∀ n, sleepCount (pollEvents c w n) = n := by
  intro n
  induction n with
  | zero => rfl
  | succ k ih =>
    simp only [pollEvents, sleepCount, List.filter] at ih ⊢
    simpa using ih

theorem pollLoop_terminal (c : String) (w : Wait) :
    ∀ (pre : List CrawlerResponse) (r : CrawlerResponse)
      (post : List CrawlerResponse),
      (∀ s ∈ pre, isActive s.state = true) → isActive r.state = false →
      pollLoop c w (pre ++ r :: post) =
        (pollEvents c w pre.length, some (r.lastCrawlStatus, r.crawlElapsedTime)) := by
  intro pre
  induction pre with
  | nil =>
    intro r post _ hr
    simp [pollLoop, hr, pollEvents]
  | cons s rest ih =>
    intro r post hpre hr
    have hs : isActive s.state = true := hpre s (by simp)
    have hrest : ∀ x ∈ rest, isActive x.state = true := by
      intro x hx
      exact hpre x (by simp [hx])
    simp [pollLoop, hs, ih r post hrest hr, pollEvents]

theorem pollLoop_all_active (c : String) (w : Wait) :
    ∀ (statuses : List CrawlerResponse),
      (∀ s ∈ statuses, isActive s.state = true) →
      (pollLoop c w statuses).2 = none := by
  intro statuses
  induction statuses with
  | nil => intro _; rfl
  | cons s rest ih =>
    intro h
    have hs : isActive s.state = true := h s (by simp)
    have hrest : ∀ x ∈ rest, isActive x.state = true := by
      intro x hx
      exact h x (by simp [hx])
    simp [pollLoop, hs, ih hrest]

/-- C1: with waiting enabled, `Database.update_tables` polls until the first
response whose state is neither `RUNNING` nor `STOPPING`: when the first `n`
observed responses are active and the next one is terminal, the call issues
the start trigger, `n + 1` status queries and exactly `n` sleeps of the wait
interval, and reports the terminal response's last-run outcome and elapsed
time; in particular a RUNNING, RUNNING, READY sequence yields two sleeps and
a READY-first sequence yields zero.  When every observed response is active
the loop is still polling (no iteration bound ends it). -/
theorem c1_poll_until_ready (c : String) (w : Wait) (hw : w.truthy = true) :
    (∀ (pre : List CrawlerResponse) (r : CrawlerResponse)
       (post : List CrawlerResponse),
       (∀ s ∈ pre, isActive s.state = true) → isActive r.state = false →
       update_tables c w (pre ++ r :: post) =
         (UTEvent.startCrawler c :: pollEvents c w pre.length,
          some (r.lastCrawlStatus, r.crawlElapsedTime)) ∧
       sleepCount (pollEvents c w pre.length) = pre.length) ∧
    (∀ statuses : List CrawlerResponse,
       (∀ s ∈ statuses, isActive s.state = true) →
       (update_tables c w statuses).2 = none) := by
  constructor
  · intro pre r post hpre hr
    refine ⟨?_, sleepCount_pollEvents c w pre.length⟩
    simp [update_tables, hw, pollLoop_terminal c w pre r post hpre hr]
  · intro statuses h
    simp [update_tables, hw, pollLoop_all_active c w statuses h]

/-- Witness for C1 at concrete inputs: the status sequence RUNNING, RUNNING,
READY produces exactly two sleeps and reports the READY response's outcome
`SUCCEEDED` and elapsed time; an immediately READY status produces zero
sleeps. -/
theorem c1_poll_until_ready_witness :
    update_tables "tables" (Wait.int 60)
        [⟨"RUNNING", 5000, "x"⟩, ⟨"RUNNING", 9000, "x"⟩,
         ⟨"READY", 12000, "SUCCEEDED"⟩] =
      (UTEvent.startCrawler "tables" :: pollEvents "tables" (Wait.int 60) 2,
       some ("SUCCEEDED", 12000)) ∧
    sleepCount (pollEvents "tables" (Wait.int 60) 2) = 2 ∧
    update_tables "tables" (Wait.int 60) [⟨"READY", 3000, "SUCCEEDED"⟩] =
      (UTEvent.startCrawler "tables" :: pollEvents "tables" (Wait.int 60) 0,
       some ("SUCCEEDED", 3000)) ∧
    sleepCount (pollEvents "tables" (Wait.int 60) 0) = 0 := by
  have h := c1_poll_until_ready "tables" (Wait.int 60) (by decide)
  have h1 := h.1 [⟨"RUNNING", 5000, "x"⟩, ⟨"RUNNING", 9000, "x"⟩]
      ⟨"READY", 12000, "SUCCEEDED"⟩ [] (by decide) (by decide)
  have h2 := h.1 [] ⟨"READY", 3000, "SUCCEEDED"⟩ [] (by decide) (by decide)
  exact ⟨h1.1, h1.2, h2.1, h2.2⟩

/-- C6: with a falsy `wait`, `Database.update_tables` issues the start
trigger, performs no status query and no sleep, and returns immediately
(no reported outcome). -/
theorem c6_wait_disabled (c : String) (w : Wait)
    (statuses : List CrawlerResponse) (hw : w.truthy = false) :
    update_tables c w statuses = ([UTEvent.startCrawler c], none) ∧
    statusQueryCount (update_tables c w statuses).1 = 0 ∧
    sleepCount (update_tables c w statuses).1 = 0 := by
  refine ⟨?_, ?_, ?_⟩ <;> simp [update_tables, hw, statusQueryCount, sleepCount]

/-- Witness for C6 at concrete inputs: `wait = False`, and a backend that
would have answered RUNNING forever, still gives only the trigger call. -/
theorem c6_wait_disabled_witness :
    update_tables "tables" (Wait.bool false) [⟨"RUNNING", 5000, "x"⟩] =
      ([UTEvent.startCrawler "tables"], none) ∧
    statusQueryCount
      (update_tables "tables" (Wait.bool false) [⟨"RUNNING", 5000, "x"⟩]).1 = 0 := by
  have h := c6_wait_disabled "tables" (Wait.bool false)
      [⟨"RUNNING", 5000, "x"⟩] (by decide)
  exact ⟨h.1, h.2.1⟩

theorem streamWaitLoop_replicate_true (name : String) :
    ∀ (k : Nat) (rest : List Bool),
      streamWaitLoop name (List.replicate k false ++ true :: rest) =
        (streamWaitEvents name k, true) := by
  intro k
  induction k with
  | zero => intro rest; simp [streamWaitLoop, streamWaitEvents]
  | succ m ih =>
    intro rest
    simp [List.replicate, streamWaitLoop, streamWaitEvents, ih rest]

theorem streamWaitLoop_all_false (name : String) :
    ∀ k : Nat, (streamWaitLoop name (List.replicate k false)).2 = false := by
  intro k
  induction k with
  | zero => rfl
  | succ m ih => simp [List.replicate, streamWaitLoop, ih]

theorem createStreamCount_waitEvents (name : String) :
    ∀ k : Nat, createStreamCount (streamWaitEvents name k) = 0 := by
  intro k
  induction k with
  | zero => rfl
  | succ m ih =>
    simp only [streamWaitEvents, createStreamCount, List.filter] at ih ⊢
    simpa using ih

/-- C7: `Stream.initialize` returns the existing description without any
creation call when the pipeline already exists; otherwise it issues the
creation call exactly once and polls existence, sleeping 10 seconds (the
fixed default interval — the method takes no interval parameter) after each
failed probe, and returns the creation response at the first successful
probe; when every observed probe fails the loop is still running (no
iteration bound). -/
theorem c7_stream_init_poll (name : String) :
    (∀ probes : List Bool,
       streamInit name true probes =
         ([FhCall.describeStream name, FhCall.describeStream name],
          some (InitResult.describeResponse name)) ∧
       createStreamCount (streamInit name true probes).1 = 0) ∧
    (∀ (k : Nat) (rest : List Bool),
       streamInit name false (List.replicate k false ++ true :: rest) =
         (FhCall.describeStream name :: FhCall.createStream name ::
            streamWaitEvents name k,
          some (InitResult.createResponse name)) ∧
       createStreamCount
         (streamInit name false (List.replicate k false ++ true :: rest)).1 = 1) ∧
    (∀ k : Nat, (streamInit name false (List.replicate k false)).2 = none) := by
  refine ⟨?_, ?_, ?_⟩
  · intro probes
    exact ⟨rfl, rfl⟩
  · intro k rest
    constructor
    · simp [streamInit, streamWaitLoop_replicate_true name k rest]
    · simp only [streamInit, streamWaitLoop_replicate_true name k rest,
        createStreamCount, List.filter]
      have := createStreamCount_waitEvents name k
      simp only [createStreamCount] at this
      simpa using this
  · intro k
    simp [streamInit, streamWaitLoop_all_false name k]

/-- C2 counterexample: the second `Database.create_crawler` call for an
existing crawler (backend already holds crawler `logs`) does issue the
mutating `create_crawler` request, and its very first issued call is that
creation — no existence probe precedes it — contradicting the claim that
every one of the three create-or-get operations probes first and issues no
mutating request on the second call. -/
theorem c2_counterexample :
    GlueCall.createCrawler "logs" ∈ (create_crawler "mydb" ["logs"] "logs").1 ∧
    (create_crawler "mydb" ["logs"] "logs").1.head? =
      some (GlueCall.createCrawler "logs") ∧
    GlueCall.isMutating (GlueCall.createCrawler "logs") = true := by
  decide

/-- C2 amended: only the delivery-pipeline creation probes existence before
creating and short-circuits (its trace for an existing pipeline is two
describes and no create); the crawler and role creations issue the create
request first and fall back to a lookup on already-exists, so their second
call still issues a create request; in all three patterns a repeated call
yields the same resource identifier as the first. -/
theorem c2_create_or_get (dbName roleDb : String) (crawlers roles : List String)
    (name pipeline : String) (probes : List Bool) :
    (streamInit pipeline true probes =
       ([FhCall.describeStream pipeline, FhCall.describeStream pipeline],
        some (InitResult.describeResponse pipeline)) ∧
     createStreamCount (streamInit pipeline true probes).1 = 0) ∧
    ((create_crawler dbName (create_crawler dbName crawlers name).2.1 name).1 =
       [GlueCall.createCrawler name, GlueCall.getCrawler dbName] ∧
     (create_crawler dbName (create_crawler dbName crawlers name).2.1 name).2.2 =
       (create_crawler dbName crawlers name).2.2) ∧
    ((initRole roleDb (initRole roleDb roles).2.1).1 =
       [IamCall.createRole (roleDb ++ "-CheapoDBExecutionRole"),
        IamCall.getRole (roleDb ++ "-CheapoDBExecutionRole")] ∧
     (initRole roleDb (initRole roleDb roles).2.1).2.2 =
       (initRole roleDb roles).2.2) := by
  refine ⟨⟨rfl, rfl⟩, ?_, ?_⟩
  · by_cases h : name ∈ crawlers
    · constructor <;> simp [create_crawler, h]
    · constructor <;> simp [create_crawler, h]
  · by_cases h : (roleDb ++ "-CheapoDBExecutionRole") ∈ roles
    · constructor <;> simp [initRole, h]
    · constructor <;> simp [initRole, h]

/-- C9: when the role name is caller-supplied, `create_cheapodb_role` hitting
an existing role raises a `CheapoDBException` telling the caller to provide
the existing role's ARN (no lookup fallback, no further IAM call); the
auto-named role creation of `Database.__init__` instead falls back to
`get_role` and stores the existing role's ARN. -/
theorem c9_role_conflict (name bucket dbName : String) (roles : List String)
    (h1 : name ∈ roles) (h2 : dbName ++ "-CheapoDBExecutionRole" ∈ roles) :
    create_cheapodb_role name bucket roles =
      ([IamCall.createRole name], roles,
       Except.error (CheapoErr.cheapoDBException
         ("Role already exists for database: CheapoDBRole-" ++ bucket ++
          ". Provide the role ARN as iam_role_arn."))) ∧
    initRole dbName roles =
      ([IamCall.createRole (dbName ++ "-CheapoDBExecutionRole"),
        IamCall.getRole (dbName ++ "-CheapoDBExecutionRole")],
       roles, arnOf (dbName ++ "-CheapoDBExecutionRole")) := by
  constructor
  · simp [create_cheapodb_role, h1]
  · simp [initRole, h2]

/-- Witness for C9 at concrete inputs: a backend already holding both the
caller-supplied role name and the auto-generated role name. -/
theorem c9_role_conflict_witness :
    "myrole" ∈ ["myrole", "mydb-CheapoDBExecutionRole"] ∧
    "mydb" ++ "-CheapoDBExecutionRole" ∈ ["myrole", "mydb-CheapoDBExecutionRole"] ∧
    create_cheapodb_role "myrole" "mybucket" ["myrole", "mydb-CheapoDBExecutionRole"] =
      ([IamCall.createRole "myrole"], ["myrole", "mydb-CheapoDBExecutionRole"],
       Except.error (CheapoErr.cheapoDBException
         ("Role already exists for database: CheapoDBRole-" ++ "mybucket" ++
          ". Provide the role ARN as iam_role_arn."))) ∧
    initRole "mydb" ["myrole", "mydb-CheapoDBExecutionRole"] =
      ([IamCall.createRole ("mydb" ++ "-CheapoDBExecutionRole"),
        IamCall.getRole ("mydb" ++ "-CheapoDBExecutionRole")],
       ["myrole", "mydb-CheapoDBExecutionRole"],
       arnOf ("mydb" ++ "-CheapoDBExecutionRole")) := by
  have h := c9_role_conflict "myrole" "mybucket" "mydb"
    ["myrole", "mydb-CheapoDBExecutionRole"] (by decide) (by decide)
  exact ⟨by decide, by decide, h.1, h.2⟩

set_option maxRecDepth 100000 in
/-- C3 (divergence of the source from the claim): `Stream.from_records`
issues exactly ONE `put_record_batch` call regardless of the number of
records and of the worker-pool size; for 1201 records that single call's
`Records` field holds the 3 chunks (of 500, 500 and 201 records) as its
entries — each `Records` entry is a whole chunk, not a record — instead of
the claimed 3 separate batch-submission calls. -/
theorem c3_single_submission (threads : Nat) :
    from_records "s" (List.range 1201) threads =
      [("s", chunks 500 (List.range 1201))] ∧
    (from_records "s" (List.range 1201) threads).length = 1 ∧
    (chunks 500 (List.range 1201)).map List.length = [500, 500, 201] ∧
    (∀ otherThreads : Nat,
      from_records "s" (List.range 1201) otherThreads =
        from_records "s" (List.range 1201) threads) := by
  refine ⟨rfl, rfl, by decide, fun _ => rfl⟩

theorem deleteObjectCount_map (db : String) (vs : List ObjVersion) :
    deleteObjectCount
      (vs.map fun v => DelCall.deleteObject db v.key v.versionId) = vs.length := by
  induction vs with
  | nil => rfl
  | cons v rest ih =>
    simp only [deleteObjectCount, List.map, List.filter] at ih ⊢
    simpa using ih

/-- C5: `Table.delete` with `include_data=True` issues one delete-by-version
call per listed object version, all of them strictly before the catalog
`delete_table` call (the trace equality exhibits the order); with zero
versions — whether the backend returns an empty `Versions` list or omits the
key entirely (the `KeyError` branch) — no delete-by-version call is issued,
the catalog delete still proceeds, and the operation completes without
raising. -/
theorem c5_versioned_delete (db tbl pfx name : String) :
    (∀ vs : List ObjVersion,
       tableDelete db tbl pfx name (some vs) true =
         DelCall.listObjectVersions db (pfx ++ "/" ++ name) ::
           ((vs.map fun v => DelCall.deleteObject db v.key v.versionId) ++
            [DelCall.deleteTable db tbl]) ∧
       deleteObjectCount (tableDelete db tbl pfx name (some vs) true) = vs.length) ∧
    tableDelete db tbl pfx name none true =
      [DelCall.listObjectVersions db (pfx ++ "/" ++ name),
       DelCall.deleteTable db tbl] ∧
    deleteObjectCount (tableDelete db tbl pfx name (some []) true) = 0 ∧
    deleteObjectCount (tableDelete db tbl pfx name none true) = 0 := by
  refine ⟨?_, rfl, rfl, rfl⟩
  intro vs
  constructor
  · simp [tableDelete]
  · simp only [tableDelete, deleteObjectCount, if_pos, List.filter_append,
      List.length_append]
    have h1 := deleteObjectCount_map db vs
    simp only [deleteObjectCount] at h1
    simp [List.filter, h1]

theorem data_ne_nil_of_ne_empty {s : String} (h : s ≠ "") : s.data ≠ [] := by
  intro hd
  apply h
  cases s with
  | mk l =>
    simp only at hd
    simp [hd]

theorem ne_empty_of_data_ne_nil {s : String} (h : s.data ≠ []) : s ≠ "" := by
  intro he
  exact h (by simp [he])

theorem endsWithSep_append {a b : String} (hb : b ≠ "") :
    endsWithSep (a ++ b) = endsWithSep b := by
  simp only [endsWithSep, String.data_append]
  rw [List.getLast?_append_of_ne_nil a.data (data_ne_nil_of_ne_empty hb)]

theorem joinOne_clean (p n : String) (hp : p ≠ "")
    (h1 : startsWithSep n = false) (h3 : endsWithSep p = false) :
    joinOne p n = p ++ "/" ++ n := by
  have hp2 : (p == "") = false := by simp [hp]
  unfold joinOne
  rw [if_neg (by simp [h1]), if_neg (by simp [hp2, h3])]

theorem append_slash_ne_empty (p n : String) : p ++ "/" ++ n ≠ "" := by
  apply ne_empty_of_data_ne_nil
  simp [String.data_append]

theorem stripChars_ne_nil {l : List Char} {c : Char} (hc : c ∈ l)
    (hw : c.isWhitespace = false) : stripChars l ≠ [] := by
  intro h
  unfold stripChars at h
  rw [List.reverse_eq_nil_iff, List.dropWhile_eq_nil_iff] at h
  have hcd : c ∈ l.dropWhile Char.isWhitespace := by
    have hsplit := List.takeWhile_append_dropWhile Char.isWhitespace l
    rw [← hsplit] at hc
    rcases List.mem_append.mp hc with h1 | h1
    · have := List.mem_takeWhile_imp h1
      rw [hw] at this
      exact absurd this Bool.false_ne_true
    · exact h1
  have := h c (List.mem_reverse.mpr hcd)
  rw [hw] at this
  exact Bool.false_ne_true this

theorem pyStrip_underscore_ne_empty (p n : String) :
    (pyStrip (p ++ "_" ++ n)).length ≠ 0 := by
  have hmem : '_' ∈ (p ++ "_" ++ n).data := by
    simp [String.data_append]
  have hne := stripChars_ne_nil hmem (by decide)
  show (stripChars (p ++ "_" ++ n).data).length ≠ 0
  simpa [List.length_eq_zero] using hne

/-- C4 (amended): for every non-empty `prefix` and `name` where `name` does
not begin with the path separator and neither component ends with it, the
storage key of `Table.upload`/`Table.download` is literally
`prefix/name/name`; the catalog table identifier computed at construction is
the stripped form of `prefix_name` (this normalization never fails from the
constructor because the concatenation always contains `_`);
`normalize_table_name` raises `ValueError` on a non-string input and on a
string that strips to empty; and the constructor issues no service call, so
the validation happens before any network traffic. -/
theorem c4_naming (p n : String) (hp : p ≠ "") (hn : n ≠ "")
    (h1 : startsWithSep n = false) (h2 : endsWithSep n = false)
    (h3 : endsWithSep p = false) :
    uploadKey p n = p ++ "/" ++ n ++ "/" ++ n ∧
    tableInit p n = Except.ok (pyStrip (p ++ "_" ++ n)) ∧
    normalize_table_name PyVal.nonStr = Except.error PyErr.valueError ∧
    (∀ s : String, (pyStrip s).length = 0 →
      normalize_table_name (PyVal.str s) = Except.error PyErr.valueError) ∧
    (tableCtor p n).2 = [] := by
  refine ⟨?_, ?_, rfl, ?_, rfl⟩
  · unfold uploadKey osPathJoin3
    rw [joinOne_clean p n hp h1 h3,
        joinOne_clean (p ++ "/" ++ n) n (append_slash_ne_empty p n) h1
          (by rw [endsWithSep_append hn]; exact h2)]
  · unfold tableInit normalize_table_name
    simp [pyStrip_underscore_ne_empty p n]
  · intro s hs
    unfold normalize_table_name
    simp [hs]

/-- Witness for C4 at concrete inputs: prefix `mydata`, name `logs`. -/
theorem c4_naming_witness :
    uploadKey "mydata" "logs" = "mydata" ++ "/" ++ "logs" ++ "/" ++ "logs" ∧
    tableInit "mydata" "logs" = Except.ok (pyStrip ("mydata" ++ "_" ++ "logs")) ∧
    (tableCtor "mydata" "logs").2 = [] := by
  have h := c4_naming "mydata" "logs" (by decide) (by decide) (by decide)
    (by decide) (by decide)
  exact ⟨h.1, h.2.1, h.2.2.2.2⟩

/-- C4 counterexample: the universal claim fails as stated, because
`os.path.join` discards earlier components when a later one is absolute: for
the non-empty prefix `p` and non-empty name `/a` the computed storage key is
`/a`, not `prefix/name/name`. -/
theorem c4_counterexample :
    uploadKey "p" "/a" = "/a" ∧
    uploadKey "p" "/a" ≠ "p" ++ "/" ++ "/a" ++ "/" ++ "/a" := by
  constructor
  · rfl
  · intro h
    have : ("/a" : String).data = ("p" ++ "/" ++ "/a" ++ "/" ++ "/a").data := by
      rw [← h]
      rfl
    simp [String.data_append] at this

/-- C8 counterexample: `Table.exists` does not propagate a genuine
non-modeled service fault — its handler catches `(EntityNotFoundException,
Exception)`, i.e. every exception — so a throttling fault comes back as the
normal return value `False` instead of the unmodified error. -/
theorem c8_counterexample :
    tableExists (Except.error (PyErr.fault "ThrottlingException")) =
      Except.ok false ∧
    tableExists (Except.error (PyErr.fault "ThrottlingException")) ≠
      Except.error (PyErr.fault "ThrottlingException") := by
  exact ⟨rfl, fun h => Except.noConfusion h⟩

/-- C8 amended: of the two existence probes, only `Stream.exists` has the
claimed behaviour — it converts exactly the modeled not-found error into
`False` and propagates every other error unmodified — while `Table.exists`
catches every error (its handler names `Exception`) and converts each of
them, modeled or not, into the normal return value `False`. -/
theorem c8_error_propagation (e : PyErr) (he : e ≠ PyErr.resourceNotFound) :
    streamExists (Except.error e) = Except.error e ∧
    streamExists (Except.error PyErr.resourceNotFound) = Except.ok false ∧
    streamExists (Except.ok ()) = Except.ok true ∧
    tableExists (Except.error e) = Except.ok false ∧
    tableExists (Except.ok ()) = Except.ok true := by
  refine ⟨?_, rfl, rfl, rfl, rfl⟩
  cases e with
  | resourceNotFound => exact absurd rfl he
  | _ => rfl

/-- Witness for C8 at a concrete input: a throttling fault. -/
theorem c8_error_propagation_witness :
    streamExists (Except.error (PyErr.fault "Throttling")) =
      Except.error (PyErr.fault "Throttling") ∧
    tableExists (Except.error (PyErr.fault "Throttling")) = Except.ok false := by
  have h := c8_error_propagation (PyErr.fault "Throttling") (by decide)
  exact ⟨h.1, h.2.2.2.1⟩

theorem getVersionsLoop_requests (backend : TVRequest → TVResponse)
    (db tbl : String) :
    ∀ (fuel : Nat) (acc : List Nat) (req : TVRequest),
      req ∈ (getVersionsLoop backend db tbl acc fuel).1 →
      req = basePayload db tbl := by
  intro fuel
  induction fuel with
  | zero =>
    intro acc req h
    simp [getVersionsLoop] at h
  | succ k ih =>
    intro acc req h
    simp only [getVersionsLoop] at h
    split at h
    · simpa using h
    · split at h
      · simpa using h
      · rcases List.mem_cons.mp h with h1 | h1
        · exact h1
        · exact ih _ req h1

theorem getVersionsLoop_nonterm (backend : TVRequest → TVResponse)
    (db tbl : String) (t : String)
    (h1 : (backend (basePayload db tbl)).tableVersions ≠ [])
    (h2 : (backend (basePayload db tbl)).nextToken = some t) :
    ∀ (fuel : Nat) (acc : List Nat),
      (getVersionsLoop backend db tbl acc fuel).2 = none := by
  intro fuel
  induction fuel with
  | zero => intro acc; rfl
  | succ k ih =>
    intro acc
    simp only [getVersionsLoop, h1, h2, if_neg]
    simpa [h1] using ih (acc ++ (backend (basePayload db tbl)).tableVersions)

/-- C10: every request `Table.get_versions` issues is the identical
first-page payload — the `NextToken` recorded from a response is never sent —
so against a deterministic catalog backend the loop terminates normally
(returning the empty accumulator) exactly when the first response's
`TableVersions` list is empty; a non-empty first response lacking a
`NextToken` key raises an uncaught `KeyError`, and a non-empty first
response carrying a token makes the loop run forever (its result is still
pending after any amount of fuel). -/
theorem c10_get_versions_requests (backend : TVRequest → TVResponse)
    (db tbl : String) :
    (∀ (fuel : Nat) (req : TVRequest),
       req ∈ (get_versions backend db tbl fuel).1 → req = basePayload db tbl) ∧
    ((backend (basePayload db tbl)).tableVersions = [] →
       ∀ fuel : Nat, get_versions backend db tbl (fuel + 1) =
         ([basePayload db tbl], some (Except.ok []))) ∧
    ((backend (basePayload db tbl)).tableVersions ≠ [] →
       (backend (basePayload db tbl)).nextToken = none →
       ∀ fuel : Nat, get_versions backend db tbl (fuel + 1) =
         ([basePayload db tbl], some (Except.error PyErr.keyError))) ∧
    (∀ t : String, (backend (basePayload db tbl)).tableVersions ≠ [] →
       (backend (basePayload db tbl)).nextToken = some t →
       ∀ fuel : Nat, (get_versions backend db tbl fuel).2 = none) := by
  refine ⟨?_, ?_, ?_, ?_⟩
  · intro fuel req h
    exact getVersionsLoop_requests backend db tbl fuel [] req h
  · intro h fuel
    simp [get_versions, getVersionsLoop, h]
  · intro h1 h2 fuel
    simp [get_versions, getVersionsLoop, h1, h2]
  · intro t h1 h2 fuel
    exact getVersionsLoop_nonterm backend db tbl t h1 h2 fuel []

/-- Witness for C10 at concrete deterministic backends: an empty first page
terminates with `[]`; a non-empty page without a token raises `KeyError`; a
non-empty page with a token never finishes; and the single request issued in
the first case is the first-page payload. -/
theorem c10_get_versions_requests_witness :
    get_versions (fun _ => TVResponse.mk [] none) "db" "t" 1 =
      ([basePayload "db" "t"], some (Except.ok [])) ∧
    get_versions (fun _ => TVResponse.mk [7] none) "db" "t" 1 =
      ([basePayload "db" "t"], some (Except.error PyErr.keyError)) ∧
    (get_versions (fun _ => TVResponse.mk [7] (some "tok")) "db" "t" 5).2 = none ∧
    basePayload "db" "t" = basePayload "db" "t" := by
  refine ⟨?_, ?_, ?_, ?_⟩
  · exact (c10_get_versions_requests (fun _ => TVResponse.mk [] none)
      "db" "t").2.1 rfl 0
  · exact (c10_get_versions_requests (fun _ => TVResponse.mk [7] none)
      "db" "t").2.2.1 (by simp) rfl 0
  · exact (c10_get_versions_requests (fun _ => TVResponse.mk [7] (some "tok"))
      "db" "t").2.2.2 "tok" (by simp) rfl 5
  · exact (c10_get_versions_requests (fun _ => TVResponse.mk [7] (some "tok"))
      "db" "t").1 3 (basePayload "db" "t") (by simp [get_versions, getVersionsLoop])

end CheapoDB
